import Mathlib

/-!
Verification development for the StylusOne EPG scraper scripts.

The repository consists of independent Python scripts that build XMLTV
documents (an XML tree with `channel` and `programme` elements).  This file
shallowly embeds the XMLTV-building and channel-normalization logic of the
scripts named in the claims:

* `src/scripts/simple_epg_scraper.py`   (namespace `SimpleEpg`)
* `src/scripts/ota_scraper.py`          (namespace `Ota`)
* `src/scripts/tvmaze_scraper.py`       (namespace `Tvmaze`)
* `src/scripts/epgshare_scraper.py`     (namespace `Epgshare`)
* `src/scripts/ontvtonight_auth_scraper.py` (namespace `OntvAuth`)
* `src/scripts/zap2it_selenium_scraper.py`  (namespace `Zap2it`)

Modelling conventions:
* XML elements (`xml.etree.ElementTree` / `minidom`) are the `Elem` tree below.
* Python naive/aware `datetime` values are `PyDateTime`: explicit calendar
  fields plus an optional UTC offset in minutes (`none` models a naive value,
  exactly as produced by `datetime.now()`).
* Python compares naive datetimes field-lexicographically; for field values in
  their calendar ranges that order coincides with the mixed-radix key
  `rank` below, which is what the embedded comparisons use.
* `str.upper`/`str.lower` are mapped over the characters (the scripts only
  feed ASCII call signs and channel labels through them), and the Python
  substring test `needle in hay` is `strContains hay needle`.
-/

/-- XML element: tag, attribute list (in insertion order), optional text,
children in insertion order.  Models both `xml.etree.ElementTree.Element`
and the `minidom` elements built by the scripts. -/
structure Elem where
  tag : String
  attrs : List (String × String)
  text : Option String
  children : List Elem

/-- Look up an attribute value on an element; empty string when absent
(models `Element.get(name, '')`). -/
def attrOf (e : Elem) (k : String) : String :=
  (((e.attrs.find? (fun p => p.1 == k)).map (fun p => p.2)).getD "")

/-- Python `str.upper` (ASCII, which is all the scripts use). -/
def pyUpper (s : String) : String := String.mk (s.data.map Char.toUpper)

/-- Python `str.lower` (ASCII). -/
def pyLower (s : String) : String := String.mk (s.data.map Char.toLower)

/-- Python `str.strip()`: drop whitespace from both ends. -/
def pyStrip (s : String) : String :=
  String.mk
    (((s.data.dropWhile Char.isWhitespace).reverse.dropWhile
        Char.isWhitespace).reverse)

/-- `s.replace(pat, repl)` on character lists: leftmost, non-overlapping.
The structural fuel equals the input length; every step consumes at least
one character (a matched non-empty pattern consumes its whole length), so
the fuel never runs out and the `fuel = 0` branch is unreachable. -/
def listReplace : Nat → List Char → List Char → List Char → List Char
  | 0, s, _, _ => s
  | _ + 1, [], _, _ => []
  | fuel + 1, c :: rest, pat, repl =>
      if pat.isPrefixOf (c :: rest) ∧ pat ≠ [] then
        repl ++ listReplace fuel ((c :: rest).drop pat.length) pat repl
      else c :: listReplace fuel rest pat repl

/-- Python `str.replace`. -/
def pyReplace (s pat repl : String) : String :=
  String.mk (listReplace s.data.length s.data pat.data repl.data)

/-- Python `str.split(sep)` for a one-character separator, on character
lists (`"".split(sep)` gives `[""]`, as in Python). -/
def listSplit (sep : Char) : List Char → List (List Char)
  | [] => [[]]
  | c :: rest =>
      let r := listSplit sep rest
      if c == sep then [] :: r
      else
        match r with
        | h :: t => (c :: h) :: t
        | [] => [[c]]

/-- Python `str.split(sep)` (one-character separator). -/
def pySplit (s : String) (sep : Char) : List String :=
  (listSplit sep s.data).map String.mk

/-- Python `int(s)` restricted to nonnegative digit strings: the parsed
value, or `none` where `int` raises `ValueError`. -/
def pyToNat (s : String) : Option Nat :=
  if s.data ≠ [] ∧ s.data.all Char.isDigit then
    some (s.data.foldl (fun a c => a * 10 + (c.toNat - 48)) 0)
  else none

/-- Python `sep.join(xs)`. -/
def pyJoin (sep : String) : List String → String
  | [] => ""
  | [a] => a
  | a :: rest => a ++ sep ++ pyJoin sep rest

/-- Substring test on character lists: `listContains hay needle` is true iff
`needle` occurs contiguously inside `hay` (Python's `needle in hay`). -/
def listContains : List Char → List Char → Bool
  | hay, needle =>
    needle.isPrefixOf hay ||
      match hay with
      | [] => false
      | _ :: t => listContains t needle

/-- Python's substring operator `needle in hay` on strings. -/
def strContains (hay needle : String) : Bool :=
  listContains hay.data needle.data

/-- Python `datetime`: calendar fields plus optional UTC offset in minutes
(`tz = none` models a naive datetime such as `datetime.now()`). -/
structure PyDateTime where
  year : Nat
  month : Nat
  day : Nat
  hour : Nat
  minute : Nat
  second : Nat
  tz : Option Int
  deriving DecidableEq

/-- Gregorian leap-year rule (Python `calendar.isleap`). -/
def isLeap (y : Nat) : Bool :=
  y % 4 == 0 && (y % 100 != 0 || y % 400 == 0)

/-- Days in a month of a given year. -/
def monthLen (y m : Nat) : Nat :=
  if m = 2 then (if isLeap y then 29 else 28)
  else if m = 4 ∨ m = 6 ∨ m = 9 ∨ m = 11 then 30
  else 31

/-- Fields lie in their calendar ranges (what Python's `datetime` enforces
at construction). -/
def PValid (dt : PyDateTime) : Prop :=
  1 ≤ dt.month ∧ dt.month ≤ 12 ∧ 1 ≤ dt.day ∧ dt.day ≤ monthLen dt.year dt.month ∧
    dt.hour < 24 ∧ dt.minute < 60 ∧ dt.second < 60

instance (dt : PyDateTime) : Decidable (PValid dt) := by
  unfold PValid; infer_instance

/-- Mixed-radix key of the date fields.  Strictly monotone with respect to
the field-lexicographic order Python uses, for in-range fields
(month ≤ 12 < 13, day ≤ 31 < 32). -/
def dateKey (dt : PyDateTime) : Nat :=
  (dt.year * 13 + dt.month) * 32 + dt.day

/-- Mixed-radix key of a full datetime, in seconds.  For valid field values
this realizes exactly Python's lexicographic comparison of naive datetimes. -/
def rank (dt : PyDateTime) : Nat :=
  dateKey dt * 86400 + dt.hour * 3600 + dt.minute * 60 + dt.second

/-- Python `a < b` on (naive) datetimes, via the rank key. -/
def dtBefore (a b : PyDateTime) : Prop := rank a < rank b

instance (a b : PyDateTime) : Decidable (dtBefore a b) := by
  unfold dtBefore; infer_instance

/-- Python `a <= b` on datetimes as a boolean (used in branch conditions). -/
def dtLeB (a b : PyDateTime) : Bool := rank a ≤ rank b

/-- `dt + timedelta(days=1)`: calendar-correct successor day
(time fields unchanged). -/
def addOneDay (dt : PyDateTime) : PyDateTime :=
  if dt.day < monthLen dt.year dt.month then { dt with day := dt.day + 1 }
  else if dt.month < 12 then { dt with month := dt.month + 1, day := 1 }
  else { dt with year := dt.year + 1, month := 1, day := 1 }

/-- `dt + timedelta(days=n)`. -/
def addDays (dt : PyDateTime) : Nat → PyDateTime
  | 0 => dt
  | n + 1 => addOneDay (addDays dt n)

/-- `dt + timedelta(minutes=k)` for nonnegative `k`: minute arithmetic with
carry into the day (seconds untouched, as `timedelta` of whole minutes). -/
def addMinutesNat (dt : PyDateTime) (k : Nat) : PyDateTime :=
  let t := dt.hour * 60 + dt.minute + k
  let d := addDays dt (t / 1440)
  { d with hour := t % 1440 / 60, minute := t % 60 }

/-- The two decimal digits of `n` (matches `%02d` and the fixed-width
`strftime` fields for `n < 100`, which covers every calendar field). -/
def digits2 (n : Nat) : List Char :=
  [Nat.digitChar (n / 10 % 10), Nat.digitChar (n % 10)]

/-- The four decimal digits of `n` (matches `%Y` for years up to 9999). -/
def digits4 (n : Nat) : List Char :=
  [Nat.digitChar (n / 1000 % 10), Nat.digitChar (n / 100 % 10),
    Nat.digitChar (n / 10 % 10), Nat.digitChar (n % 10)]

/-- The characters `strftime` produces for `%z`: empty for a naive datetime,
sign plus two-digit hours and minutes for an aware one. -/
def offsetChars : Option Int → List Char
  | none => []
  | some off =>
      (if off < 0 then '-' else '+') ::
        (digits2 (off.natAbs / 60) ++ digits2 (off.natAbs % 60))

/-- `dt.strftime("%Y%m%d%H%M%S %z")`, the time formatter shared verbatim by
`simple_epg_scraper.py`, `ota_scraper.py`, `tvmaze_scraper.py` and inlined in
`ontvtonight_auth_scraper.py`.  Note the trailing space survives when the
datetime is naive, because `%z` renders as the empty string. -/
def format_xmltv_time (dt : PyDateTime) : String :=
  String.mk (digits4 dt.year ++ digits2 dt.month ++ digits2 dt.day ++
    digits2 dt.hour ++ digits2 dt.minute ++ digits2 dt.second ++
    [' '] ++ offsetChars dt.tz)

/-- Recognizer for XMLTV's canonical timestamp form
`YYYYMMDDHHMMSS ±HHMM`: fourteen digits, a space, a sign, four digits. -/
def isXmltvTimestamp (s : String) : Bool :=
  match s.data with
  | [c1, c2, c3, c4, c5, c6, c7, c8, c9, c10, c11, c12, c13, c14,
      sp, sg, d1, d2, d3, d4] =>
      c1.isDigit && c2.isDigit && c3.isDigit && c4.isDigit && c5.isDigit &&
      c6.isDigit && c7.isDigit && c8.isDigit && c9.isDigit && c10.isDigit &&
      c11.isDigit && c12.isDigit && c13.isDigit && c14.isDigit &&
      (sp == ' ') && (sg == '+' || sg == '-') &&
      d1.isDigit && d2.isDigit && d3.isDigit && d4.isDigit
  | _ => false

namespace SimpleEpg

/-!  Embedding of `src/scripts/simple_epg_scraper.py`. -/

/-- `create_xmltv_header` (lines 11-17). -/
def create_xmltv_header : Elem :=
  ⟨"tv",
    [("source-info-name", "Simple EPG Scraper"),
      ("generator-info-name", "HomelabDashboard"),
      ("generator-info-url", "https://github.com/user/homelab")],
    none, []⟩

/-- `add_channel_to_xmltv` (lines 19-25): appends one `channel` element with a
single `display-name` child. -/
def add_channel_to_xmltv (root : Elem) (channel_id display_name : String) : Elem :=
  { root with children := root.children ++
      [⟨"channel", [("id", channel_id)], none,
        [⟨"display-name", [], some display_name, []⟩]⟩] }

/-- `add_program_to_xmltv` (lines 27-41): appends one `programme` element
unconditionally; there is no comparison of `start_time` and `stop_time` and
no error path. -/
def add_program_to_xmltv (root : Elem)
    (channel_id start_time stop_time title description : String) : Elem :=
  { root with children := root.children ++
      [⟨"programme",
        [("channel", channel_id), ("start", start_time), ("stop", stop_time)],
        none,
        ⟨"title", [("lang", "en")], some title, []⟩ ::
          (if description = "" then []
            else [⟨"desc", [("lang", "en")], some description, []⟩])⟩] }

/-- The `channels` dict of `generate_realistic_sample_data` (lines 89-96),
in insertion order. -/
def channelsTable : List (String × String) :=
  [("10.1", "KGTV (ABC)"), ("39.1", "KNSD (NBC)"), ("8.1", "KFMB (CBS)"),
    ("69.1", "KSWB (FOX)"), ("15.1", "KPBS (PBS)"), ("10.7", "HSN")]

/-- The `programs` dict (lines 99-167): per channel id, the
`(title, start, end)` triples with their original `"H:MM"` strings. -/
def programsTable : List (String × List (String × String × String)) :=
  [("10.1",
    [("Good Morning America", "6:00", "9:00"), ("The View", "9:00", "10:00"),
      ("General Hospital", "10:00", "11:00"), ("ABC News", "11:00", "11:30"),
      ("Local News", "11:30", "12:00"), ("Judge Judy", "12:00", "13:00"),
      ("Steve Harvey", "13:00", "14:00"), ("ABC World News", "14:00", "14:30"),
      ("Jeopardy!", "14:30", "15:00"), ("Wheel of Fortune", "15:00", "15:30"),
      ("ABC Evening News", "15:30", "16:00"), ("Primetime Special", "16:00", "18:00"),
      ("The Bachelor", "18:00", "20:00"), ("Dancing with the Stars", "20:00", "22:00"),
      ("Jimmy Kimmel Live!", "22:00", "23:00"), ("Nightline", "23:00", "23:30")]),
   ("39.1",
    [("Today Show", "6:00", "10:00"), ("Days of Our Lives", "10:00", "11:00"),
      ("NBC News Daily", "11:00", "12:00"), ("Access Hollywood", "12:00", "12:30"),
      ("Extra", "12:30", "13:00"), ("Ellen's Game of Games", "13:00", "14:00"),
      ("NBC Nightly News", "14:00", "14:30"), ("Entertainment Tonight", "14:30", "15:00"),
      ("Judge Jerry", "15:00", "16:00"), ("Local News", "16:00", "17:00"),
      ("The Voice", "17:00", "19:00"), ("Chicago Fire", "19:00", "20:00"),
      ("Chicago P.D.", "20:00", "21:00"), ("Chicago Med", "21:00", "22:00"),
      ("The Tonight Show", "22:00", "23:00"), ("Late Night", "23:00", "23:59")]),
   ("15.1",
    [("PBS NewsHour", "6:00", "7:00"), ("Nature", "7:00", "8:00"),
      ("NOVA", "8:00", "9:00"), ("Frontline", "9:00", "10:00"),
      ("American Experience", "10:00", "11:00"), ("Masterpiece", "11:00", "13:00"),
      ("Antiques Roadshow", "13:00", "14:00"), ("This Old House", "14:00", "14:30"),
      ("Ask This Old House", "14:30", "15:00"), ("Rick Steves' Europe", "15:00", "15:30"),
      ("America's Test Kitchen", "15:30", "16:00"), ("PBS NewsHour Weekend", "16:00", "16:30"),
      ("Washington Week", "16:30", "17:00"), ("Great Performances", "17:00", "19:00"),
      ("Austin City Limits", "19:00", "20:00"), ("Independent Lens", "20:00", "22:00"),
      ("Amanpour and Company", "22:00", "23:00"), ("BBC World News", "23:00", "24:00")]),
   ("10.7",
    [("Today's Special Value", "6:00", "8:00"), ("Fashion Friday", "8:00", "10:00"),
      ("Home Solutions", "10:00", "12:00"), ("Beauty Report", "12:00", "14:00"),
      ("Electronics Today", "14:00", "16:00"), ("Jewelry Showcase", "16:00", "18:00"),
      ("Kitchen & Dining", "18:00", "20:00"), ("Health & Fitness", "20:00", "22:00"),
      ("PM Style", "22:00", "23:59")])]

/-- `int(s.split(':')[0])` and `int(s.split(':')[1])` (lines 181-184), for the
well-formed `"H:MM"` strings of the table. -/
def parseHM (s : String) : Nat × Nat :=
  match pySplit s ':' with
  | [a, b] => ((pyToNat a).getD 0, (pyToNat b).getD 0)
  | _ => (0, 0)

/-- Lines 186-196 of `generate_realistic_sample_data`: given the base date
(`now.replace(hour=6, minute=0, second=0)`) and the two `"H:MM"` strings of a
table entry, compute the programme's `start_time` and `end_time`, including
the hour-24 clamp and the midnight-rollover adjustment. -/
def eventTimes (base : PyDateTime) (sh eh : String) : PyDateTime × PyDateTime :=
  let s := parseHM sh
  let e := parseHM eh
  let start_time := { base with hour := s.1, minute := s.2 }
  let end0 :=
    if 24 ≤ e.1 then addOneDay { base with hour := 23, minute := 59 }
    else { base with hour := e.1, minute := e.2 }
  let end_time := if dtLeB end0 start_time then addOneDay end0 else end0
  (start_time, end_time)

/-- One programme row of the sample-data generator, before it is rendered
into a `programme` element. -/
structure SampleEvent where
  chan : String
  start : PyDateTime
  stop : PyDateTime
  title : String
  desc : String
  deriving DecidableEq

/-- The loop body of lines 176-201 flattened into a list: for each channel id
that appears in the `programs` dict, one event per table entry, with
`base_date = now.replace(hour=6, minute=0, second=0, microsecond=0)`. -/
def sampleEvents (now : PyDateTime) : List SampleEvent :=
  let base := { now with hour := 6, minute := 0, second := 0 }
  channelsTable.bind fun ci =>
    match List.lookup ci.1 programsTable with
    | some l =>
        l.map fun ent =>
          let ts := eventTimes base ent.2.1 ent.2.2
          ⟨ci.1, ts.1, ts.2, ent.1, "Programming on " ++ ci.2⟩
    | none => []

/-- `generate_realistic_sample_data` (lines 85-203): header, the channels in
table order, then every programme with `format_xmltv_time`-rendered
start/stop strings. -/
def generate_realistic_sample_data (now : PyDateTime) : Elem :=
  let root := channelsTable.foldl
    (fun r ci => add_channel_to_xmltv r ci.1 ci.2) create_xmltv_header
  (sampleEvents now).foldl
    (fun r ev => add_program_to_xmltv r ev.chan
      (format_xmltv_time ev.start) (format_xmltv_time ev.stop) ev.title ev.desc)
    root

end SimpleEpg

namespace Ota

/-!  Embedding of `src/scripts/ota_scraper.py`.

For `generate_ota_programming` only the temporal behaviour matters to the
claims, so datetimes here are naive minutes since an epoch: `replace(hour=6,
minute=0, second=0)` becomes `(t / 1440) * 1440 + 360`, `date()` becomes
`t / 1440`, and `timedelta(minutes=d)` is addition. -/

/-- `create_xmltv_header` (lines 13-19). -/
def create_xmltv_header : Elem :=
  ⟨"tv",
    [("source-info-name", "OTA TV Listings"),
      ("generator-info-name", "HomelabDashboard"),
      ("generator-info-url", "https://tvlistings.zap2it.com/")],
    none, []⟩

/-- `add_program_to_xmltv` (lines 33-47): character-for-character the same
as the simple scraper's — the `programme` element is appended
unconditionally, with no comparison of the two timestamps and no error
path. -/
def add_program_to_xmltv (root : Elem)
    (channel_id start_time stop_time title description : String) : Elem :=
  { root with children := root.children ++
      [⟨"programme",
        [("channel", channel_id), ("start", start_time), ("stop", stop_time)],
        none,
        ⟨"title", [("lang", "en")], some title, []⟩ ::
          (if description = "" then []
            else [⟨"desc", [("lang", "en")], some description, []⟩])⟩] }

/-- `add_channel_to_xmltv` (lines 21-31): one `channel` element with one or
two `display-name` children (the second when a call sign is supplied). -/
def add_channel_to_xmltv (root : Elem) (channel_id display_name : String)
    (call_sign : Option String) : Elem :=
  { root with children := root.children ++
      [⟨"channel", [("id", channel_id)], none,
        ⟨"display-name", [], some display_name, []⟩ ::
          (match call_sign with
            | some cs => [⟨"display-name", [], some cs, []⟩]
            | none => [])⟩] }

/-- One entry of the `programming` dict (title, duration in minutes,
description). -/
structure OtaProg where
  title : String
  duration : Nat
  desc : String

/-- One channel of `get_san_diego_ota_channels` (lines 53-74). -/
structure OtaChannel where
  callSign : String
  cid : String
  name : String
  network : String

/-- `get_san_diego_ota_channels` in table order. -/
def otaChannels : List OtaChannel :=
  [⟨"KGTV-HD", "10.1", "ABC San Diego", "ABC"⟩,
    ⟨"KFMB-HD", "8.1", "CBS San Diego", "CBS"⟩,
    ⟨"KNSD-DT", "39.1", "NBC San Diego", "NBC"⟩,
    ⟨"KSWB-HD", "69.1", "FOX San Diego", "FOX"⟩,
    ⟨"KUSI-HD", "51.1", "KUSI Independent", "IND"⟩,
    ⟨"KPBS-HD", "15.1", "PBS San Diego", "PBS"⟩,
    ⟨"KPBS2", "15.2", "PBS Kids", "PBS"⟩,
    ⟨"CREATE", "15.3", "Create TV", "PBS"⟩,
    ⟨"ION", "7.1", "ION Television", "ION"⟩,
    ⟨"QVC", "7.2", "QVC", "QVC"⟩,
    ⟨"HSN", "7.3", "HSN", "HSN"⟩,
    ⟨"Grit", "69.2", "Grit", "Grit"⟩,
    ⟨"Laff", "69.3", "Laff", "Laff"⟩,
    ⟨"Bounce", "39.2", "Bounce TV", "Bounce"⟩,
    ⟨"Court TV", "39.3", "Court TV", "CourtTV"⟩,
    ⟨"TrueReal", "39.4", "TrueReal", "TrueReal"⟩,
    ⟨"AntennaTV", "8.2", "Antenna TV", "AntennaTV"⟩,
    ⟨"Decades", "8.3", "Decades", "Decades"⟩]

/-- The `programming` dict of `generate_ota_programming` (lines 90-143). -/
def otaProgramming : List (String × List OtaProg) :=
  [("ABC",
    [⟨"Good Morning America", 180, "National morning news and talk show"⟩,
      ⟨"The View", 60, "Daytime talk show"⟩,
      ⟨"General Hospital", 60, "Soap opera"⟩,
      ⟨"ABC World News Tonight", 30, "Evening news"⟩,
      ⟨"Jeopardy!", 30, "Quiz show"⟩,
      ⟨"Wheel of Fortune", 30, "Word puzzle game show"⟩,
      ⟨"Abbott Elementary", 30, "Comedy series"⟩,
      ⟨"The Bachelor", 120, "Reality dating show"⟩,
      ⟨"Local News", 60, "San Diego local news"⟩]),
   ("NBC",
    [⟨"Today Show", 240, "Morning news and talk"⟩,
      ⟨"Days of Our Lives", 60, "Soap opera"⟩,
      ⟨"NBC Nightly News", 30, "Evening news"⟩,
      ⟨"The Voice", 120, "Singing competition"⟩,
      ⟨"This Is Us (Rerun)", 60, "Drama series"⟩,
      ⟨"Local News", 60, "San Diego local news"⟩]),
   ("CBS",
    [⟨"CBS Mornings", 180, "Morning news show"⟩,
      ⟨"The Price is Right", 60, "Game show"⟩,
      ⟨"The Young and the Restless", 60, "Soap opera"⟩,
      ⟨"The Bold and the Beautiful", 30, "Soap opera"⟩,
      ⟨"CBS Evening News", 30, "Evening news"⟩,
      ⟨"Survivor", 90, "Reality competition"⟩,
      ⟨"Local News", 60, "San Diego local news"⟩]),
   ("FOX",
    [⟨"FOX & Friends (Local)", 180, "Morning news"⟩,
      ⟨"Judge Judy", 30, "Court show"⟩,
      ⟨"The People's Court", 30, "Court show"⟩,
      ⟨"FOX 5 News", 60, "Local news"⟩,
      ⟨"The Simpsons", 30, "Animated comedy"⟩,
      ⟨"Family Guy", 30, "Animated comedy"⟩,
      ⟨"9-1-1", 60, "Drama series"⟩]),
   ("PBS",
    [⟨"PBS NewsHour", 60, "News program"⟩,
      ⟨"Sesame Street", 30, "Children's show"⟩,
      ⟨"Daniel Tiger", 30, "Children's show"⟩,
      ⟨"Nature", 60, "Documentary"⟩,
      ⟨"NOVA", 60, "Science documentary"⟩,
      ⟨"Masterpiece", 120, "British drama"⟩]),
   ("IND",
    [⟨"KUSI Morning News", 240, "Local morning news"⟩,
      ⟨"KUSI Midday", 60, "Local midday news"⟩,
      ⟨"KUSI Evening News", 60, "Local evening news"⟩,
      ⟨"San Diego Sports", 30, "Local sports"⟩,
      ⟨"Good Day San Diego", 180, "Local morning show"⟩])]

/-- One programme row of the generator: channel id, start and stop in naive
minutes, title, description. -/
structure OtaEvent where
  chan : String
  start : Nat
  stop : Nat
  title : String
  desc : String
  deriving DecidableEq

/-- `List.lookup` only returns lists stored in the table. -/
theorem lookup_table_prop {α : Type} [BEq α] {β : Type} (P : β → Prop)
    (l : List (α × β)) (hl : ∀ x ∈ l, P x.2) :
    ∀ k ps, List.lookup k l = some ps → P ps := by
  induction l with
  | nil => intro k ps h; simp [List.lookup] at h
  | cons a t ih =>
      intro k ps h
      rw [List.lookup] at h
      by_cases hk : (k == a.1) = true
      · rw [hk] at h
        simp at h
        exact h ▸ hl a (by simp)
      · rw [Bool.not_eq_true] at hk
        rw [hk] at h
        exact ih (fun x hx => hl x (by simp [hx])) k ps h

/-- The cycling fill loop of lines 150-167: while the current time is still
on the start day, emit the next programme of the cycle (stop = start +
duration) and advance.  The source's `while current_time.date() ==
start_time.date()` terminates because every table duration is at least 30
minutes; the structural fuel passed by `otaEvents` (1441) exceeds the
largest possible number of iterations of any loop whose step is at least
one minute, so the `fuel = 0` branch is unreachable on the tables above. -/
def otaFill (cid : String) (ps : List OtaProg) (startDay : Nat) :
    Nat → Nat → Nat → List OtaEvent
  | 0, _, _ => []
  | fuel + 1, current, idx =>
    if current / 1440 = startDay then
      match ps.get? (idx % ps.length) with
      | some p =>
          ⟨cid, current, current + p.duration, p.title, p.desc⟩ ::
            otaFill cid ps startDay fuel (current + p.duration) (idx + 1)
      | none => []
    else []

/-- The generic fill loop of lines 169-181 (networks without a programming
table): two-hour blocks until the day rolls over. -/
def otaGenericFill (cid name : String) (startDay : Nat) :
    Nat → Nat → List OtaEvent
  | 0, _ => []
  | fuel + 1, current =>
    if current / 1440 = startDay then
      ⟨cid, current, current + 120, "Programming on " ++ name,
          "Television programming on " ++ name⟩ ::
        otaGenericFill cid name startDay fuel (current + 120)
    else []

/-- The programme rows of `generate_ota_programming` (lines 76-183) for a run
whose `datetime.now()` is the naive minute `now`: `start_time` is 06:00 of
`now`'s day, and each channel is filled from its network's table, or with the
generic two-hour blocks when the network has none. -/
def otaEvents (now : Nat) : List OtaEvent :=
  let startDay := now / 1440
  let start_time := startDay * 1440 + 360
  otaChannels.bind fun ci =>
    match List.lookup ci.network otaProgramming with
    | some ps => otaFill ci.cid ps startDay 1441 start_time 0
    | none => otaGenericFill ci.cid ci.name startDay 1441 start_time

end Ota

namespace Tvmaze

/-!  Embedding of `src/scripts/tvmaze_scraper.py`.

Aware datetimes (parsed from TVMaze's ISO `airstamp` strings) are a pair of
the absolute instant in minutes and the UTC offset in minutes; Python's
aware-datetime comparison and `+ timedelta(minutes=r)` both factor through
the instant.  `datetime.fromisoformat` is standard-library behaviour, so
`parse_tvmaze_time`'s input is modelled as "parsed to this datetime" or
"malformed" and the function projects that, matching its
succeed-or-return-`None` contract (lines 103-113). -/

/-- Aware datetime: absolute instant in minutes and UTC offset in minutes. -/
structure TzDT where
  instant : Int
  offsetMin : Int
  deriving DecidableEq

/-- Outcome of handing an `airstamp` string to Python's ISO parsing. -/
inductive AirStamp where
  | parsed (dt : TzDT)
  | malformed
  deriving DecidableEq

/-- `parse_tvmaze_time` (lines 103-113): the parsed datetime, or `None`. -/
def parse_tvmaze_time : AirStamp → Option TzDT
  | .parsed dt => some dt
  | .malformed => none

/-- A `network` / `webChannel` JSON object: optional `name`, optional `id`
(already rendered through `str`, as on line 139). -/
structure TvNetwork where
  name : Option String
  nid : Option String
  deriving DecidableEq

/-- One entry of the TVMaze `/schedule` response, restricted to the keys
`convert_tvmaze_to_xmltv` reads. -/
structure TvEntry where
  showName : Option String
  network : Option TvNetwork
  webChannel : Option TvNetwork
  airstamp : Option AirStamp
  runtime : Option Int
  epName : Option String
  season : Option Nat
  number : Option Nat
  showSummary : Option String
  entrySummary : Option String

/-- One element of the `programs` list built on lines 171-177.  The source
dict stores `format_xmltv_time`-rendered strings; the embedding keeps the
datetimes handed to the formatter, since the claims concern their order and
the channel linkage. -/
structure TvProgramme where
  channel_id : String
  start : TzDT
  stop : TzDT
  title : String
  description : String
  deriving DecidableEq

/-- The data `convert_tvmaze_to_xmltv` accumulates before emitting XML: the
`channels` dict (insertion-ordered, value overwritten on re-insertion) and
the `programs` list. -/
structure TvDoc where
  channels : List (String × String)
  programmes : List TvProgramme

/-- Python dict assignment `d[k] = v` on an insertion-ordered dict. -/
def dictInsert (l : List (String × String)) (k v : String) :
    List (String × String) :=
  if l.any (fun p => p.1 == k) then
    l.map (fun p => if p.1 == k then (k, v) else p)
  else l ++ [(k, v)]

/-- `f"S{n:02d}"`-style zero padding (two digits minimum). -/
def zfill2 (n : Nat) : String :=
  if n < 10 then "0" ++ toString n else toString n

/-- The `<p>`/`</p>`/`<b>`/`</b>` stripping applied to summaries
(lines 167-169). -/
def stripTags (s : String) : String :=
  pyReplace (pyReplace (pyReplace (pyReplace s "<p>" "") "</p>" "") "<b>" "")
    "</b>" ""

/-- Lines 134-136: `network = show.get('network', {}) or show.get('webChannel',
{})`, defaulted to the `Unknown Network`/`unknown` dict when both are
absent/falsy. -/
def entryNetwork (e : TvEntry) : TvNetwork :=
  match e.network with
  | some n => n
  | none =>
      match e.webChannel with
      | some n => n
      | none => ⟨some "Unknown Network", some "unknown"⟩

/-- Line 138: `channel_name = network.get('name', 'Unknown Network')`. -/
def entryChannelName (e : TvEntry) : String :=
  (entryNetwork e).name.getD "Unknown Network"

/-- Line 139: `channel_id = str(network.get('id',
channel_name.lower().replace(' ', '-')))`. -/
def entryChannelId (e : TvEntry) : String :=
  (entryNetwork e).nid.getD (pyReplace (pyLower (entryChannelName e)) " " "-")

/-- Lines 155-164: the programme title — show name, optional episode name
suffix, optional `(SxxEyy)` tag (only when `season and number` are both
present and truthy, i.e. nonzero). -/
def entryTitle (e : TvEntry) : String :=
  let show_name := e.showName.getD "Unknown Show"
  let episode_name := e.epName.getD ""
  let title0 :=
    if episode_name = "" then show_name
    else show_name ++ ": " ++ episode_name
  match e.season, e.number with
  | some s, some n =>
      if s ≠ 0 ∧ n ≠ 0 then
        title0 ++ " (S" ++ zfill2 s ++ "E" ++ zfill2 n ++ ")"
      else title0
  | _, _ => title0

/-- Lines 167-169: the description, from the entry summary when present and
nonempty, from the show summary otherwise, both tag-stripped. -/
def entryDescription (e : TvEntry) : String :=
  match e.entrySummary with
  | some s => if s ≠ "" then stripTags s else stripTags (e.showSummary.getD "")
  | none => stripTags (e.showSummary.getD "")

/-- Lines 145-177: the programme record appended for the entry — one when
the airstamp is present and parses (stop = start +
timedelta(minutes=entry.get('runtime', 30))), none otherwise. -/
def entryProgrammes (e : TvEntry) : List TvProgramme :=
  match e.airstamp with
  | none => []
  | some stamp =>
      match parse_tvmaze_time stamp with
      | none => []
      | some start_dt =>
          [⟨entryChannelId e, start_dt,
            ⟨start_dt.instant + e.runtime.getD 30, start_dt.offsetMin⟩,
            entryTitle e, entryDescription e⟩]

/-- Lines 128-177, the per-entry body of `convert_tvmaze_to_xmltv`: register
the entry's channel in the dict (`channels[channel_id] = channel_name` runs
on every entry, before the airstamp check), and append the entry's
programme record when there is one. -/
def processEntry (acc : TvDoc) (e : TvEntry) : TvDoc :=
  { channels := dictInsert acc.channels (entryChannelId e) (entryChannelName e),
    programmes := acc.programmes ++ entryProgrammes e }

/-- `convert_tvmaze_to_xmltv` (lines 115-197), first phase: fold the entries
into the channels dict and programs list (the second phase emits one
`channel` element per dict key and one `programme` element per list entry,
copying these fields into attributes). -/
def convert_tvmaze_to_xmltv (entries : List TvEntry) : TvDoc :=
  entries.foldl processEntry ⟨[], []⟩

end Tvmaze

namespace Epgshare

/-!  Embedding of `src/scripts/epgshare_scraper.py`. -/

/-- A record of the `san_diego_channels` table (lines 50-63). -/
structure ChanInfo where
  cid : String
  name : String
  network : String
  deriving DecidableEq

/-- `san_diego_channels`, in insertion order. -/
def san_diego_channels : List (String × ChanInfo) :=
  [("KGTV", ⟨"10.1", "ABC San Diego", "ABC"⟩),
    ("KFMB", ⟨"8.1", "CBS San Diego", "CBS"⟩),
    ("KNSD", ⟨"39.1", "NBC San Diego", "NBC"⟩),
    ("KSWB", ⟨"69.1", "FOX San Diego", "FOX"⟩),
    ("KPBS", ⟨"15.1", "PBS San Diego", "PBS"⟩),
    ("KUSI", ⟨"51.1", "KUSI Independent", "IND"⟩)]

/-- The per-channel matching loop of `filter_san_diego_channels`
(lines 84-96): given a channel's `id` attribute and its display names,
return the first table record whose call sign occurs (case-insensitively,
in one of the five tested shapes) in the id or the joined display text. -/
def matchChannel (channel_id : String) (display_names : List String) :
    Option (String × ChanInfo) :=
  let display_text := pyUpper (pyJoin " " display_names)
  san_diego_channels.find? fun m =>
    strContains (pyUpper channel_id) m.1 ||
    strContains display_text m.1 ||
    strContains display_text (m.1 ++ "-HD") ||
    strContains display_text (m.1 ++ "-DT") ||
    strContains display_text ("(" ++ m.1 ++ ")")

/-- The per-programme matching loop (lines 100-111): match on the uppercased
`channel` attribute only. -/
def matchProgramme (channel_id : String) : Option (String × ChanInfo) :=
  let cu := pyUpper channel_id
  san_diego_channels.find? fun m =>
    strContains cu m.1 ||
    strContains cu (m.1 ++ "-HD") ||
    strContains cu (m.1 ++ "-DT")

/-- Exceptions are opaque to the control flow being modelled. -/
def PyExc : Type := Unit

/-- `main` of `epgshare_scraper.py` (lines 125-178), as a function of the
outcomes of its effectful steps: the fetch (which either returns decoded
content or raises, line 44 raising when every candidate file fails), the
pure filter step (which cannot raise: its only raiser, `ET.fromstring`, is
caught inside `filter_san_diego_channels` and turned into `None`), and the
file write (shared shape for the filtered and the fallback payloads).
Result: the process exit code and whether an output file was written.
A write that raises is caught by the outer `except`, which exits 1.
Falling off the end of `main` exits 0. -/
def main (fetch : Except PyExc String) (filt : String → Option String)
    (write : Except PyExc Unit) : Nat × Bool :=
  match fetch with
  | .error _ => (1, false)
  | .ok content =>
      match filt content with
      | some _ =>
          match write with
          | .ok _ => (0, true)
          | .error _ => (1, false)
      | none =>
          match write with
          | .ok _ => (0, true)
          | .error _ => (1, false)

end Epgshare

namespace OntvAuth

/-!  Embedding of `src/scripts/ontvtonight_auth_scraper.py`. -/

/-- A record of the `channel_mappings` table (lines 271-283). -/
structure MapInfo where
  cid : String
  name : String
  deriving DecidableEq

/-- `channel_mappings`, in insertion order (several aliases share a
canonical id). -/
def channel_mappings : List (String × MapInfo) :=
  [("KGTV", ⟨"10.1", "ABC San Diego"⟩),
    ("KFMB", ⟨"8.1", "CBS San Diego"⟩),
    ("KNSD", ⟨"39.1", "NBC San Diego"⟩),
    ("KSWB", ⟨"69.1", "FOX San Diego"⟩),
    ("KPBS", ⟨"15.1", "PBS San Diego"⟩),
    ("KUSI", ⟨"51.1", "KUSI Independent"⟩),
    ("ABC", ⟨"10.1", "ABC San Diego"⟩),
    ("CBS", ⟨"8.1", "CBS San Diego"⟩),
    ("NBC", ⟨"39.1", "NBC San Diego"⟩),
    ("FOX", ⟨"69.1", "FOX San Diego"⟩),
    ("PBS", ⟨"15.1", "PBS San Diego"⟩)]

/-- The channel lookup of lines 313-321: the first mapping whose call sign
contains or is contained in the uppercased input label; `None`
(here `none`) when no record matches. -/
def resolveChannel (channel_name : String) : Option String :=
  (channel_mappings.find? fun m =>
      strContains (pyUpper channel_name) (pyUpper m.1) ||
      strContains (pyUpper m.1) (pyUpper channel_name)).map
    (fun m => m.2.cid)

/-- The channel-emitting loop of lines 285-298: walk the mapping table and
append a `channel` element (with the canonical name and the alias as its
display names) unless the canonical id is already in the `added_channels`
set. -/
def buildChannels : List (String × MapInfo) → List String → List Elem
  | [], _ => []
  | (cs, info) :: rest, added =>
    if added.contains info.cid then buildChannels rest added
    else
      ⟨"channel", [("id", info.cid)], none,
          [⟨"display-name", [], some info.name, []⟩,
            ⟨"display-name", [], some cs, []⟩]⟩ ::
        buildChannels rest (info.cid :: added)

/-- One scraped program record (the dicts produced by
`extract_programs_from_page`): title, channel label and time string. -/
structure ScrapedProg where
  title : String
  channel : String
  time : String

/-- `re.match(r'\d{1,2}:\d{2}', s)` (line 328): one or two leading digits,
a colon, two digits. -/
def matchesHM (s : String) : Bool :=
  match s.data with
  | a :: ':' :: c :: d :: _ => a.isDigit && c.isDigit && d.isDigit
  | a :: b :: ':' :: c :: d :: _ =>
      a.isDigit && b.isDigit && c.isDigit && d.isDigit
  | _ => false

/-- `now.replace(hour=h, minute=m, second=0, microsecond=0)` (line 339),
which raises `ValueError` — caught by the surrounding `except`, skipping the
program — when the fields are out of range (e.g. `'PM'` pushing the hour to
25). -/
def replaceChecked (now : PyDateTime) (h m : Nat) : Option PyDateTime :=
  if h < 24 ∧ m < 60 then some { now with hour := h, minute := m, second := 0 }
  else none

/-- Lines 305-357, the per-program body of `create_xmltv_from_data`: strip
the fields, skip empty titles/channels, resolve the channel label, parse the
`H:MM`/`HH:MM` time with its AM/PM adjustment, and build a `programme`
element whose stop is one hour after its start, timestamps rendered through
`strftime("%Y%m%d%H%M%S %z")` on the naive `datetime.now()`-based values. -/
def programElem (now : PyDateTime) (p : ScrapedProg) : Option Elem :=
  let title := pyStrip p.title
  let channel_name := pyStrip p.channel
  let time_str := pyStrip p.time
  if title = "" ∨ channel_name = "" then none
  else
    match resolveChannel channel_name with
    | none => none
    | some channel_id =>
        if matchesHM time_str then
          let parts := pySplit time_str ':'
          let hour0 := (pyToNat (parts.headD "")).getD 0
          let minuteStr := (pySplit (parts.getD 1 "") ' ').headD ""
          let minute := (pyToNat minuteStr).getD 0
          let hour :=
            if strContains (pyUpper time_str) "PM" ∧ hour0 ≠ 12 then hour0 + 12
            else if strContains (pyUpper time_str) "AM" ∧ hour0 = 12 then 0
            else hour0
          match replaceChecked now hour minute with
          | none => none
          | some start_time =>
              let end_time := addMinutesNat start_time 60
              some ⟨"programme",
                [("channel", channel_id),
                  ("start", format_xmltv_time start_time),
                  ("stop", format_xmltv_time end_time)],
                none,
                [⟨"title", [("lang", "en")], some title, []⟩]⟩
        else none

/-- `create_xmltv_from_data` (lines 262-360): the `tv` root with the deduped
channel elements followed by every successfully parsed programme element
(the period structure of `programs_data` only orders the iteration). -/
def create_xmltv_from_data (now : PyDateTime)
    (programs_data : List (String × List ScrapedProg)) : Elem :=
  ⟨"tv",
    [("source-info-name", "OnTVTonight San Diego"),
      ("generator-info-name", "HomelabDashboard"),
      ("generator-info-url", "https://www.ontvtonight.com/")],
    none,
    buildChannels channel_mappings [] ++
      programs_data.bind (fun per => per.2.filterMap (programElem now))⟩

/-- `main` of `ontvtonight_auth_scraper.py` (lines 362-406) over the
outcomes of its effectful steps: login (may raise or return `False`),
guide-data collection (may raise; per-period errors are caught inside and
produce an empty dict), and the output write.  Exit code plus
whether the output file was written. -/
def main (login : Except Epgshare.PyExc Bool)
    (guide : Except Epgshare.PyExc (List (String × List ScrapedProg)))
    (write : Except Epgshare.PyExc Unit) : Nat × Bool :=
  match login with
  | .error _ => (1, false)
  | .ok false => (1, false)
  | .ok true =>
      match guide with
      | .error _ => (1, false)
      | .ok [] => (1, false)
      | .ok (_ :: _) =>
          match write with
          | .error _ => (1, false)
          | .ok _ => (0, true)

end OntvAuth

namespace Zap2it

/-!  Embedding of `src/scripts/zap2it_selenium_scraper.py` (the
`format_xmltv_time` method, lines 378-391, and the `run`/`main` control
flow, lines 405-457). -/

/-- Exactly two decimal digits. -/
def num2 (s : String) : Option Nat :=
  if s.data.length = 2 then pyToNat s else none

/-- Exactly four decimal digits. -/
def num4 (s : String) : Option Nat :=
  if s.data.length = 4 then pyToNat s else none

/-- Split `"HH:MM:SS±HH:MM"` into the clock part and the optional signed
offset part. -/
def splitOffset (t : String) : Option (String × Option (Bool × String)) :=
  if t.data.contains '+' then
    match pySplit t '+' with
    | [a, b] => some (a, some (false, b))
    | _ => none
  else if t.data.contains '-' then
    match pySplit t '-' with
    | [a, b] => some (a, some (true, b))
    | _ => none
  else some (t, none)

/-- `datetime.datetime.fromisoformat` on the canonical
`YYYY-MM-DDTHH:MM:SS[±HH:MM]` shape the scraper's sources produce: the
parsed (possibly aware) datetime, or `none` where Python raises
`ValueError`. -/
def fromisoformatOpt (s : String) : Option PyDateTime := do
  let [d, t] := pySplit s 'T' | none
  let [ys, ms, ds] := pySplit d '-' | none
  let y ← num4 ys
  let mo ← num2 ms
  let dd ← num2 ds
  let (tm, off) ← splitOffset t
  let [hs, mis, ss] := pySplit tm ':' | none
  let h ← num2 hs
  let mi ← num2 mis
  let sec ← num2 ss
  let tz : Option Int ←
    match off with
    | none => pure none
    | some (neg, os) => do
        let [ohs, oms] := pySplit os ':' | none
        let oh ← num2 ohs
        let om ← num2 oms
        if oh < 24 ∧ om < 60 then
          let v : Int := oh * 60 + om
          pure (some (if neg then -v else v))
        else none
  if 1 ≤ mo ∧ mo ≤ 12 ∧ 1 ≤ dd ∧ dd ≤ monthLen y mo ∧ h < 24 ∧ mi < 60 ∧
      sec < 60 then
    pure ⟨y, mo, dd, h, mi, sec, tz⟩
  else none

/-- `dt.strftime("%Y%m%d%H%M%S +0000")` (lines 382, 387, 391): the
datetime's own wall-clock fields, with a hardcoded `+0000` suffix — no
conversion of the fields to UTC takes place. -/
def strftimePlus0000 (dt : PyDateTime) : String :=
  String.mk (digits4 dt.year ++ digits2 dt.month ++ digits2 dt.day ++
    digits2 dt.hour ++ digits2 dt.minute ++ digits2 dt.second) ++ " +0000"

/-- `format_xmltv_time` (lines 378-391): empty input or a parse failure
yields the current time stamped `+0000`; an input containing `'T'` (with
`'Z'` first rewritten to `'+00:00'`) is re-rendered from its parsed
wall-clock fields with the literal `+0000` suffix; any other non-empty
input is returned unchanged. -/
def format_xmltv_time (now : PyDateTime) (time_str : String) : String :=
  if time_str = "" then strftimePlus0000 now
  else if time_str.data.contains 'T' then
    match fromisoformatOpt (pyReplace time_str "Z" "+00:00") with
    | some dt => strftimePlus0000 dt
    | none => strftimePlus0000 now
  else time_str

/-- The absolute instant a (possibly aware) datetime denotes, in seconds of
the `rank` linearization: wall-clock key minus the UTC offset.  For two
datetimes with equal calendar fields this is exact; it is only used in such
comparisons. -/
def instantSec (dt : PyDateTime) : Int :=
  (rank dt : Int) - 60 * (dt.tz.getD 0)

/-- `ModernZap2ItScraper.run` (lines 405-436) over the outcomes of its
steps: driver setup, authentication (`False` on rejected login), grid
extraction, and the file save; XMLTV building is pure.  Returns
(success flag, whether the output file was written); every exception is
caught and turned into `False`. -/
def run (setup : Except Epgshare.PyExc Unit) (auth : Except Epgshare.PyExc Bool)
    (extract : Except Epgshare.PyExc Unit) (save : Except Epgshare.PyExc Unit) :
    Bool × Bool :=
  match setup with
  | .error _ => (false, false)
  | .ok _ =>
      match auth with
      | .error _ => (false, false)
      | .ok false => (false, false)
      | .ok true =>
          match extract with
          | .error _ => (false, false)
          | .ok _ =>
              match save with
              | .error _ => (false, false)
              | .ok _ => (true, true)

/-- `main` (lines 439-457): in `--test` mode the sample data is generated
and saved with no surrounding `try` (a raising save aborts the interpreter
with exit code 1); otherwise the exit code is 0 or 1 as `run` succeeded. -/
def main (test : Bool) (setup : Except Epgshare.PyExc Unit)
    (auth : Except Epgshare.PyExc Bool) (extract : Except Epgshare.PyExc Unit)
    (save : Except Epgshare.PyExc Unit) : Nat × Bool :=
  if test then
    match save with
    | .ok _ => (0, true)
    | .error _ => (1, false)
  else
    let r := run setup auth extract save
    (if r.1 then 0 else 1, r.2)

end Zap2it

theorem monthLen_le (y m : Nat) : monthLen y m ≤ 31 := by
  unfold monthLen
  split
  · split <;> omega
  · split <;> omega

theorem monthLen_pos (y m : Nat) : 1 ≤ monthLen y m := by
  unfold monthLen
  split
  · split <;> omega
  · split <;> omega

theorem addOneDay_dateKey (dt : PyDateTime) (h : PValid dt) :
    dateKey dt < dateKey (addOneDay dt) := by
  obtain ⟨h1, h2, h3, h4, _, _, _⟩ := h
  have hml := monthLen_le dt.year dt.month
  by_cases hc1 : dt.day < monthLen dt.year dt.month
  · rw [addOneDay, if_pos hc1]
    simp [dateKey]
  · rw [addOneDay, if_neg hc1]
    by_cases hc2 : dt.month < 12
    · rw [if_pos hc2]
      simp [dateKey]
      omega
    · rw [if_neg hc2]
      simp [dateKey]
      omega

theorem rank_lt_of_dateKey_lt {a b : PyDateTime} (ha5 : a.hour < 24)
    (ha6 : a.minute < 60) (ha7 : a.second < 60) (h : dateKey a < dateKey b) :
    rank a < rank b := by
  unfold rank
  omega

theorem eventTimes_lt (y mo d bh bm sec : Nat) (tz : Option Int) (sh eh : String)
    (hmo1 : 1 ≤ mo) (hmo2 : mo ≤ 12) (hd1 : 1 ≤ d) (hd2 : d ≤ monthLen y mo)
    (hsec : sec < 60)
    (hh1 : (SimpleEpg.parseHM sh).1 < 24) (hm1 : (SimpleEpg.parseHM sh).2 < 60)
    (hm2 : (SimpleEpg.parseHM eh).2 < 60) :
    dtBefore (SimpleEpg.eventTimes ⟨y, mo, d, bh, bm, sec, tz⟩ sh eh).1
      (SimpleEpg.eventTimes ⟨y, mo, d, bh, bm, sec, tz⟩ sh eh).2 := by
  simp only [SimpleEpg.eventTimes]
  by_cases h24 : 24 ≤ (SimpleEpg.parseHM eh).1
  · rw [if_pos h24]
    have hlt : dtBefore
        ⟨y, mo, d, (SimpleEpg.parseHM sh).1, (SimpleEpg.parseHM sh).2, sec, tz⟩
        (addOneDay ⟨y, mo, d, 23, 59, sec, tz⟩) :=
      rank_lt_of_dateKey_lt hh1 hm1 hsec
        (addOneDay_dateKey ⟨y, mo, d, 23, 59, sec, tz⟩
          ⟨hmo1, hmo2, hd1, hd2, by show (23 : Nat) < 24; omega,
            by show (59 : Nat) < 60; omega, hsec⟩)
    have hcond : ¬ (dtLeB (addOneDay ⟨y, mo, d, 23, 59, sec, tz⟩)
        ⟨y, mo, d, (SimpleEpg.parseHM sh).1, (SimpleEpg.parseHM sh).2, sec, tz⟩
          = true) := by
      simp only [dtLeB, decide_eq_true_eq]
      unfold dtBefore at hlt
      omega
    rw [if_neg hcond]
    exact hlt
  · rw [if_neg h24]
    by_cases hc : dtLeB
        ⟨y, mo, d, (SimpleEpg.parseHM eh).1, (SimpleEpg.parseHM eh).2, sec, tz⟩
        ⟨y, mo, d, (SimpleEpg.parseHM sh).1, (SimpleEpg.parseHM sh).2, sec, tz⟩
          = true
    · rw [if_pos hc]
      exact rank_lt_of_dateKey_lt hh1 hm1 hsec
        (addOneDay_dateKey
          ⟨y, mo, d, (SimpleEpg.parseHM eh).1, (SimpleEpg.parseHM eh).2, sec, tz⟩
          ⟨hmo1, hmo2, hd1, hd2,
            by show (SimpleEpg.parseHM eh).1 < 24; omega, hm2, hsec⟩)
    · rw [if_neg hc]
      simp only [dtLeB, decide_eq_true_eq] at hc
      unfold dtBefore
      omega

theorem simpleEvents_lt (now : PyDateTime) (hn : PValid now) :
    ∀ ev ∈ SimpleEpg.sampleEvents now, dtBefore ev.start ev.stop := by
  obtain ⟨y, mo, d, bh, bm, bs, tz⟩ := now
  obtain ⟨hn1, hn2, hn3, hn4, hn5, hn6, hn7⟩ := hn
  intro ev hev
  simp only [SimpleEpg.sampleEvents, List.mem_bind] at hev
  obtain ⟨ci, hci, hmem⟩ := hev
  cases hl : List.lookup ci.1 SimpleEpg.programsTable with
  | none => rw [hl] at hmem; simp at hmem
  | some l =>
      rw [hl] at hmem
      rw [List.mem_map] at hmem
      obtain ⟨ent, hent, hev⟩ := hmem
      have hbd := Ota.lookup_table_prop
        (fun l => ∀ ent ∈ l,
          (SimpleEpg.parseHM ent.2.1).1 < 24 ∧ (SimpleEpg.parseHM ent.2.1).2 < 60 ∧
            (SimpleEpg.parseHM ent.2.2).2 < 60)
        SimpleEpg.programsTable (by decide) ci.1 l hl ent hent
      subst hev
      exact eventTimes_lt y mo d 6 0 0 tz ent.2.1 ent.2.2 hn1 hn2 hn3 hn4
        (by omega) hbd.1 hbd.2.1 hbd.2.2

theorem otaFill_lt (cid : String) (ps : List Ota.OtaProg) (startDay : Nat)
    (hpos : ∀ p ∈ ps, 0 < p.duration) :
    ∀ fuel current idx, ∀ ev ∈ Ota.otaFill cid ps startDay fuel current idx,
      ev.start < ev.stop := by
  intro fuel
  induction fuel with
  | zero => intro current idx ev hev; simp [Ota.otaFill] at hev
  | succ n ih =>
      intro current idx ev hev
      rw [Ota.otaFill] at hev
      by_cases hguard : current / 1440 = startDay
      · rw [if_pos hguard] at hev
        cases hp : ps.get? (idx % ps.length) with
        | none => rw [hp] at hev; simp at hev
        | some p =>
            rw [hp] at hev
            rcases List.mem_cons.mp hev with h | h
            · subst h
              have := hpos p (List.get?_mem hp)
              show current < current + p.duration
              omega
            · exact ih (current + p.duration) (idx + 1) ev h
      · rw [if_neg hguard] at hev
        simp at hev

theorem otaGenericFill_lt (cid name : String) (startDay : Nat) :
    ∀ fuel current, ∀ ev ∈ Ota.otaGenericFill cid name startDay fuel current,
      ev.start < ev.stop := by
  intro fuel
  induction fuel with
  | zero => intro current ev hev; simp [Ota.otaGenericFill] at hev
  | succ n ih =>
      intro current ev hev
      rw [Ota.otaGenericFill] at hev
      by_cases hguard : current / 1440 = startDay
      · rw [if_pos hguard] at hev
        rcases List.mem_cons.mp hev with h | h
        · subst h
          show current < current + 120
          omega
        · exact ih (current + 120) ev h
      · rw [if_neg hguard] at hev
        simp at hev

theorem otaEvents_lt (now : Nat) :
    ∀ ev ∈ Ota.otaEvents now, ev.start < ev.stop := by
  intro ev hev
  simp only [Ota.otaEvents, List.mem_bind] at hev
  obtain ⟨ci, hci, hmem⟩ := hev
  cases hl : List.lookup ci.network Ota.otaProgramming with
  | none =>
      rw [hl] at hmem
      exact otaGenericFill_lt ci.cid ci.name _ _ _ ev hmem
  | some ps =>
      rw [hl] at hmem
      exact otaFill_lt ci.cid ps _
        (Ota.lookup_table_prop (fun ps => ∀ p ∈ ps, 0 < p.duration)
          Ota.otaProgramming (by decide) ci.network ps hl)
        _ _ _ ev hmem

/-- Every programme record an entry contributes carries the entry's channel
id, and its stop instant is its start instant plus the effective runtime. -/
theorem entryProgrammes_spec (e : Tvmaze.TvEntry) :
    ∀ p ∈ Tvmaze.entryProgrammes e,
      p.channel_id = Tvmaze.entryChannelId e ∧
        p.stop.instant = p.start.instant + e.runtime.getD 30 := by
  intro p hp
  unfold Tvmaze.entryProgrammes at hp
  rcases hs : e.airstamp with _ | stamp <;> rw [hs] at hp
  · simp at hp
  · rcases stamp with dt | _
    · simp only [Tvmaze.parse_tvmaze_time, List.mem_singleton] at hp
      subst hp
      exact ⟨rfl, rfl⟩
    · simp [Tvmaze.parse_tvmaze_time] at hp

theorem tvmaze_step_lt (acc : Tvmaze.TvDoc) (e : Tvmaze.TvEntry)
    (hacc : ∀ p ∈ acc.programmes, p.start.instant < p.stop.instant)
    (hr : 1 ≤ e.runtime.getD 30) :
    ∀ p ∈ (Tvmaze.processEntry acc e).programmes,
      p.start.instant < p.stop.instant := by
  intro p hp
  simp only [Tvmaze.processEntry, List.mem_append] at hp
  rcases hp with h | h
  · exact hacc p h
  · have := (entryProgrammes_spec e p h).2
    omega

theorem tvmaze_lt (entries : List Tvmaze.TvEntry)
    (hr : ∀ e ∈ entries, 1 ≤ e.runtime.getD 30) :
    ∀ p ∈ (Tvmaze.convert_tvmaze_to_xmltv entries).programmes,
      p.start.instant < p.stop.instant := by
  unfold Tvmaze.convert_tvmaze_to_xmltv
  suffices h : ∀ acc : Tvmaze.TvDoc,
      (∀ p ∈ acc.programmes, p.start.instant < p.stop.instant) →
      ∀ p ∈ (entries.foldl Tvmaze.processEntry acc).programmes,
        p.start.instant < p.stop.instant by
    exact h ⟨[], []⟩ (by simp)
  induction entries with
  | nil => intro acc hacc; simpa using hacc
  | cons e es ih =>
      intro acc hacc
      simp only [List.foldl_cons]
      exact ih (fun e' he' => hr e' (by simp [he'])) _
        (tvmaze_step_lt acc e hacc (hr e (by simp)))

/-- C1: Every programme element emitted by a generator that computes the
stop time as start plus a duration satisfies start < stop — amended: this
holds unconditionally for `ota_scraper.generate_ota_programming` and for
`simple_epg_scraper.generate_realistic_sample_data` (including its
midnight-rollover adjustment), and for `tvmaze_scraper.convert_tvmaze_to_xmltv`
for every entry whose effective runtime (`entry.get('runtime', 30)`) is at
least one minute; it fails for runtime = 0, where start = stop (see the
counterexample). -/
theorem C1_start_before_stop :
    (∀ now : PyDateTime, PValid now →
      ∀ ev ∈ SimpleEpg.sampleEvents now, dtBefore ev.start ev.stop) ∧
    (∀ now : Nat, ∀ ev ∈ Ota.otaEvents now, ev.start < ev.stop) ∧
    (∀ entries : List Tvmaze.TvEntry,
      (∀ e ∈ entries, 1 ≤ e.runtime.getD 30) →
      ∀ p ∈ (Tvmaze.convert_tvmaze_to_xmltv entries).programmes,
        p.start.instant < p.stop.instant) :=
  ⟨simpleEvents_lt, otaEvents_lt, tvmaze_lt⟩

set_option maxRecDepth 100000 in
/-- C1 witness: the amended theorem applied at concrete inputs — the first
sample-data programme (06:00-09:00 on a 2025-01-01 run), the first OTA
programme of an arbitrary day, and a TVMaze entry with runtime 30. -/
theorem C1_start_before_stop_witness :
    dtBefore (⟨2025, 1, 1, 6, 0, 0, none⟩ : PyDateTime)
      ⟨2025, 1, 1, 9, 0, 0, none⟩ ∧
    (777960 : Nat) < 778140 ∧ ((1000 : Int) < 1030) :=
  ⟨C1_start_before_stop.1 ⟨2025, 1, 1, 8, 30, 0, none⟩ (by decide)
      ⟨"10.1", ⟨2025, 1, 1, 6, 0, 0, none⟩, ⟨2025, 1, 1, 9, 0, 0, none⟩,
        "Good Morning America", "Programming on KGTV (ABC)"⟩ (by decide),
    C1_start_before_stop.2.1 777777
      ⟨"10.1", 777960, 778140, "Good Morning America",
        "National morning news and talk show"⟩ (by decide),
    C1_start_before_stop.2.2
      [⟨some "S", some ⟨some "N", some "n1"⟩, none,
        some (.parsed ⟨1000, -480⟩), some 30, none, none, none, none, none⟩]
      (by decide)
      ⟨"n1", ⟨1000, -480⟩, ⟨1030, -480⟩, "S", ""⟩ (by decide)⟩

/-- C1 counterexample: a TVMaze schedule entry with `runtime = 0` is
accepted by the converter (the programme is emitted), but its programme has
start = stop, refuting `start < stop` as stated. -/
theorem C1_counterexample :
    ((Tvmaze.convert_tvmaze_to_xmltv
        [⟨some "S", some ⟨some "N", some "n1"⟩, none,
          some (.parsed ⟨1000, -480⟩), some 0, none, none, none, none,
          none⟩]).programmes.map
      (fun p => decide (p.start.instant < p.stop.instant))) = [false] := by
  decide

theorem digitChar_lt10_isDigit :
    ∀ n : Nat, n < 10 → (Nat.digitChar n).isDigit = true := by
  intro n h
  interval_cases n <;> decide

theorem digitChar_mod10_isDigit (n : Nat) :
    (Nat.digitChar (n % 10)).isDigit = true :=
  digitChar_lt10_isDigit _ (Nat.mod_lt _ (by omega))

/-- C2: the programme-adding operation is required to raise
`InvalidTimeRange` when stop <= start — the source does not: evaluated at
two equal timestamps (so stop <= start holds), `add_program_to_xmltv` of
both `simple_epg_scraper.py` and `ota_scraper.py` appends the `programme`
element to the document and has no error path at all. -/
theorem C2_no_invalid_time_range_error :
    dtLeB ⟨2025, 1, 1, 6, 0, 0, none⟩ ⟨2025, 1, 1, 6, 0, 0, none⟩ = true ∧
    ((SimpleEpg.add_program_to_xmltv SimpleEpg.create_xmltv_header "10.1"
        (format_xmltv_time ⟨2025, 1, 1, 6, 0, 0, none⟩)
        (format_xmltv_time ⟨2025, 1, 1, 6, 0, 0, none⟩)
        "Test Show" "").children.map Elem.tag = ["programme"]) ∧
    ((Ota.add_program_to_xmltv Ota.create_xmltv_header "10.1"
        (format_xmltv_time ⟨2025, 1, 1, 6, 0, 0, none⟩)
        (format_xmltv_time ⟨2025, 1, 1, 6, 0, 0, none⟩)
        "Test Show" "").children.map Elem.tag = ["programme"]) := by decide

/-- C3: timestamps rendered by `format_xmltv_time` — amended: every
timezone-aware datetime (fields in range, year at most 9999, offset under
100 hours) renders in the canonical `YYYYMMDDHHMMSS ±HHMM` form, and the
2025-01-01 06:00/07:00 -08:00 examples render exactly as the spec states;
but a naive datetime (as built from `datetime.now()` by the scripts)
renders with an empty `%z`, i.e. fifteen characters ending in a space, not
the canonical form (see the counterexample). -/
theorem C3_format_canonical_form :
    (∀ dt : PyDateTime, PValid dt → dt.year ≤ 9999 →
      ∀ off : Int, dt.tz = some off → off.natAbs ≤ 5999 →
      isXmltvTimestamp (format_xmltv_time dt) = true) ∧
    format_xmltv_time ⟨2025, 1, 1, 6, 0, 0, some (-480)⟩ =
      "20250101060000 -0800" ∧
    format_xmltv_time ⟨2025, 1, 1, 7, 0, 0, some (-480)⟩ =
      "20250101070000 -0800" ∧
    (∀ dt : PyDateTime, dt.tz = none →
      (format_xmltv_time dt).length = 15 ∧
        isXmltvTimestamp (format_xmltv_time dt) = false) := by
  refine ⟨?_, by decide, by decide, ?_⟩
  · intro dt h hy off htz hoff
    have hd := digitChar_mod10_isDigit
    by_cases hneg : off < 0 <;>
      simp [format_xmltv_time, htz, offsetChars, digits2, digits4,
        isXmltvTimestamp, hneg, hd]
  · intro dt htz
    constructor
    · simp [format_xmltv_time, htz, offsetChars, digits2, digits4,
        String.length]
    · simp [format_xmltv_time, htz, offsetChars, digits2, digits4,
        isXmltvTimestamp]

/-- C3 witness: the amended theorem applied to an aware datetime with a
+02:00 offset. -/
theorem C3_format_canonical_form_witness :
    isXmltvTimestamp (format_xmltv_time ⟨2025, 6, 15, 12, 30, 45, some 120⟩) =
      true :=
  C3_format_canonical_form.1 ⟨2025, 6, 15, 12, 30, 45, some 120⟩ (by decide)
    (by decide) 120 rfl (by decide)

/-- C3 counterexample: the sample-data generator feeds naive
`datetime.now()`-derived values to `format_xmltv_time`; on a 2025-01-01 run
the first emitted programme's `start` attribute is `"20250101060000 "` —
fifteen characters, empty `%z`, no `±HHMM` offset — refuting the claim for
naive timestamps. -/
theorem C3_counterexample :
    format_xmltv_time ⟨2025, 1, 1, 6, 0, 0, none⟩ = "20250101060000 " ∧
    isXmltvTimestamp "20250101060000 " = false ∧
    ((SimpleEpg.generate_realistic_sample_data
          ⟨2025, 1, 1, 8, 30, 0, none⟩).children.filter
        (fun c => c.tag == "programme")).head?.map (fun e => attrOf e "start") =
      some "20250101060000 " := by decide

/-- The texts of an element's `display-name` children, in document order. -/
def displayNames (e : Elem) : List String :=
  (e.children.filter (fun c => c.tag == "display-name")).map
    (fun c => (c.text).getD "")

/-- C4: for every non-empty channel id and display names, one call to the
channel-adding operation on a fresh document yields exactly one `channel`
element carrying that id, whose display-name children are the given names
in order — for `simple_epg_scraper.add_channel_to_xmltv` (one name) and
`ota_scraper.add_channel_to_xmltv` (name plus optional call sign). -/
theorem C4_add_channel_exactly_one :
    ∀ (cid name : String) (cs : Option String), cid ≠ "" →
    (((SimpleEpg.add_channel_to_xmltv SimpleEpg.create_xmltv_header cid
        name).children.filter
      (fun c => c.tag == "channel" && attrOf c "id" == cid)).map displayNames =
      [[name]]) ∧
    (((Ota.add_channel_to_xmltv Ota.create_xmltv_header cid name
        cs).children.filter
      (fun c => c.tag == "channel" && attrOf c "id" == cid)).map displayNames =
      [name :: cs.toList]) := by
  intro cid name cs hcid
  constructor
  · simp [SimpleEpg.add_channel_to_xmltv, SimpleEpg.create_xmltv_header,
      attrOf, displayNames, List.filter]
  · cases cs <;>
      simp [Ota.add_channel_to_xmltv, Ota.create_xmltv_header, attrOf,
        displayNames, List.filter]

/-- C4 witness: the theorem applied at channel `10.1` with display names
`ABC San Diego` and call sign `KGTV-HD`. -/
theorem C4_add_channel_exactly_one_witness :
    (((SimpleEpg.add_channel_to_xmltv SimpleEpg.create_xmltv_header "10.1"
        "ABC San Diego").children.filter
      (fun c => c.tag == "channel" && attrOf c "id" == "10.1")).map
        displayNames = [["ABC San Diego"]]) ∧
    (((Ota.add_channel_to_xmltv Ota.create_xmltv_header "10.1" "ABC San Diego"
        (some "KGTV-HD")).children.filter
      (fun c => c.tag == "channel" && attrOf c "id" == "10.1")).map
        displayNames = [["ABC San Diego", "KGTV-HD"]]) :=
  C4_add_channel_exactly_one "10.1" "ABC San Diego" (some "KGTV-HD")
    (by decide)

/-- C5: any label whose uppercased form contains `KGTV` resolves to channel
id `10.1`: in `epgshare_scraper.filter_san_diego_channels` both when the
label is the channel's id attribute and when it is a display name, and in
`ontvtonight_auth_scraper.create_xmltv_from_data`'s mapping loop — `KGTV`
is the first record of both tables, so the case-insensitive containment
test matches it first. -/
theorem C5_case_insensitive_lookup : ∀ label : String,
    strContains (pyUpper label) "KGTV" = true →
    (Epgshare.matchChannel label []).map (fun m => m.2.cid) = some "10.1" ∧
    (Epgshare.matchChannel "" [label]).map (fun m => m.2.cid) = some "10.1" ∧
    OntvAuth.resolveChannel label = some "10.1" := by
  intro label h
  refine ⟨?_, ?_, ?_⟩
  · simp [Epgshare.matchChannel, Epgshare.san_diego_channels, List.find?, h]
  · have hj : pyJoin " " [label] = label := rfl
    simp [Epgshare.matchChannel, Epgshare.san_diego_channels, List.find?,
      hj, h]
  · have hku : pyUpper "KGTV" = "KGTV" := rfl
    simp [OntvAuth.resolveChannel, OntvAuth.channel_mappings, List.find?,
      hku, h]

/-- C5 witness: the theorem applied at the three labels named by the spec:
`kgtv`, `KGTV` and `KGTV-HD`. -/
theorem C5_case_insensitive_lookup_witness :
    OntvAuth.resolveChannel "kgtv" = some "10.1" ∧
    OntvAuth.resolveChannel "KGTV" = some "10.1" ∧
    (Epgshare.matchChannel "KGTV-HD" []).map (fun m => m.2.cid) =
      some "10.1" :=
  ⟨(C5_case_insensitive_lookup "kgtv" (by decide)).2.2,
    (C5_case_insensitive_lookup "KGTV" (by decide)).2.2,
    (C5_case_insensitive_lookup "KGTV-HD" (by decide)).1⟩

/-- C6: an unmapped label such as `ZZZZ` makes both normalizers return
their explicit no-match sentinel (Python `None`, `none` here): the lookups
are total functions, and in general they return either the sentinel or the
canonical id of a record of the static table — never an invented id. -/
theorem C6_unmapped_sentinel :
    Epgshare.matchChannel "ZZZZ" [] = none ∧
    Epgshare.matchProgramme "ZZZZ" = none ∧
    OntvAuth.resolveChannel "ZZZZ" = none ∧
    (∀ label : String, OntvAuth.resolveChannel label = none ∨
      ∃ m ∈ OntvAuth.channel_mappings,
        OntvAuth.resolveChannel label = some m.2.cid) ∧
    (∀ (cid : String) (names : List String),
      Epgshare.matchChannel cid names = none ∨
      ∃ m ∈ Epgshare.san_diego_channels,
        Epgshare.matchChannel cid names = some m) := by
  refine ⟨by decide, by decide, by decide, ?_, ?_⟩
  · intro label
    rcases hf : (OntvAuth.channel_mappings.find? fun m =>
        strContains (pyUpper label) (pyUpper m.1) ||
        strContains (pyUpper m.1) (pyUpper label)) with _ | m
    · left
      simp [OntvAuth.resolveChannel, hf]
    · right
      exact ⟨m, List.mem_of_find?_eq_some hf,
        by simp [OntvAuth.resolveChannel, hf]⟩
  · intro cid names
    rcases hf : Epgshare.matchChannel cid names with _ | m
    · left
      rfl
    · right
      refine ⟨m, ?_, rfl⟩
      simp only [Epgshare.matchChannel] at hf
      exact List.mem_of_find?_eq_some hf

theorem buildChannels_tag :
    ∀ (ms : List (String × OntvAuth.MapInfo)) (added : List String),
    ∀ el ∈ OntvAuth.buildChannels ms added, el.tag = "channel" := by
  intro ms
  induction ms with
  | nil => intro added el hel; simp [OntvAuth.buildChannels] at hel
  | cons m rest ih =>
      intro added el hel
      rw [OntvAuth.buildChannels] at hel
      by_cases h : added.contains m.2.cid
      · rw [if_pos h] at hel
        exact ih added el hel
      · rw [if_neg h] at hel
        rcases List.mem_cons.mp hel with hh | hh
        · subst hh; rfl
        · exact ih _ el hh

theorem programElem_tag (now : PyDateTime) (p : OntvAuth.ScrapedProg)
    (el : Elem) (h : OntvAuth.programElem now p = some el) :
    el.tag = "programme" := by
  simp only [OntvAuth.programElem] at h
  repeat' split at h
  all_goals first
    | exact Option.noConfusion h
    | (injection h with h; subst h; rfl)

/-- C8: in every document built by
`ontvtonight_auth_scraper.create_xmltv_from_data` the ids of the channel
elements are pairwise distinct (`Nodup` is `Pairwise (¬ · = ·)`): the
channel loop draws from the static mapping table, whose aliases share
canonical ids, but insertion is guarded by the `added_channels` set; the
programme elements appended afterwards never carry the `channel` tag. -/
theorem C8_channel_ids_unique :
    ∀ (now : PyDateTime) (pd : List (String × List OntvAuth.ScrapedProg)),
    (((OntvAuth.create_xmltv_from_data now pd).children.filter
      (fun c => c.tag == "channel")).map (fun e => attrOf e "id")).Nodup := by
  intro now pd
  have h1 : (OntvAuth.create_xmltv_from_data now pd).children =
      OntvAuth.buildChannels OntvAuth.channel_mappings [] ++
        pd.bind (fun per => per.2.filterMap (OntvAuth.programElem now)) := rfl
  rw [h1, List.filter_append]
  have h2 : (pd.bind fun per =>
      per.2.filterMap (OntvAuth.programElem now)).filter
        (fun c => c.tag == "channel") = [] := by
    rw [List.filter_eq_nil]
    intro el hel
    rw [List.mem_bind] at hel
    obtain ⟨per, hper, hel⟩ := hel
    rw [List.mem_filterMap] at hel
    obtain ⟨q, hq, hqe⟩ := hel
    simp [programElem_tag now q el hqe]
  have h3 : (OntvAuth.buildChannels OntvAuth.channel_mappings []).filter
      (fun c => c.tag == "channel") =
      OntvAuth.buildChannels OntvAuth.channel_mappings [] := by
    rw [List.filter_eq_self]
    intro el hel
    simp [buildChannels_tag _ _ el hel]
  rw [h2, h3, List.append_nil]
  decide

theorem dictInsert_mem_key (l : List (String × String)) (k v : String) :
    ∃ c ∈ Tvmaze.dictInsert l k v, c.1 = k := by
  unfold Tvmaze.dictInsert
  by_cases h : l.any (fun p => p.1 == k)
  · rw [if_pos h]
    rw [List.any_eq_true] at h
    obtain ⟨q, hq, hqk⟩ := h
    refine ⟨(k, v), ?_, rfl⟩
    rw [List.mem_map]
    exact ⟨q, hq, by simp [hqk]⟩
  · rw [if_neg h]
    exact ⟨(k, v), by simp, rfl⟩

theorem dictInsert_keeps (l : List (String × String)) (k v : String)
    (c : String × String) (hc : c ∈ l) :
    ∃ c' ∈ Tvmaze.dictInsert l k v, c'.1 = c.1 := by
  unfold Tvmaze.dictInsert
  by_cases h : l.any (fun p => p.1 == k)
  · rw [if_pos h]
    by_cases hck : (c.1 == k) = true
    · refine ⟨(k, v), ?_, ?_⟩
      · rw [List.mem_map]
        exact ⟨c, hc, by simp [hck]⟩
      · have := eq_of_beq hck
        simp [this]
    · refine ⟨c, ?_, rfl⟩
      rw [List.mem_map]
      refine ⟨c, hc, by simp [hck]⟩
  · rw [if_neg h]
    exact ⟨c, by simp [hc], rfl⟩

theorem tvmaze_step_ref (acc : Tvmaze.TvDoc) (e : Tvmaze.TvEntry)
    (hacc : ∀ p ∈ acc.programmes, ∃ c ∈ acc.channels, c.1 = p.channel_id) :
    ∀ p ∈ (Tvmaze.processEntry acc e).programmes,
      ∃ c ∈ (Tvmaze.processEntry acc e).channels, c.1 = p.channel_id := by
  intro p hp
  have hch : (Tvmaze.processEntry acc e).channels =
      Tvmaze.dictInsert acc.channels (Tvmaze.entryChannelId e)
        (Tvmaze.entryChannelName e) := rfl
  rw [hch]
  simp only [Tvmaze.processEntry, List.mem_append] at hp
  rcases hp with h | h
  · obtain ⟨c, hcmem, hck⟩ := hacc p h
    exact (dictInsert_keeps acc.channels _ _ c hcmem).imp
      (fun c' hh => ⟨hh.1, hh.2.trans hck⟩)
  · rw [(entryProgrammes_spec e p h).1]
    exact dictInsert_mem_key acc.channels _ _

/-- C9: every document produced by `tvmaze_scraper.convert_tvmaze_to_xmltv`
has no dangling programme reference: each programme's channel id is the key
of some entry of the channels dict (hence of some emitted `channel`
element), because `channels[channel_id] = channel_name` runs for every
entry before its programme record is appended, and keys are never
removed. -/
theorem C9_no_dangling_programme : ∀ entries : List Tvmaze.TvEntry,
    ∀ p ∈ (Tvmaze.convert_tvmaze_to_xmltv entries).programmes,
      ∃ c ∈ (Tvmaze.convert_tvmaze_to_xmltv entries).channels,
        c.1 = p.channel_id := by
  intro entries
  unfold Tvmaze.convert_tvmaze_to_xmltv
  suffices h : ∀ acc : Tvmaze.TvDoc,
      (∀ p ∈ acc.programmes, ∃ c ∈ acc.channels, c.1 = p.channel_id) →
      ∀ p ∈ (entries.foldl Tvmaze.processEntry acc).programmes,
        ∃ c ∈ (entries.foldl Tvmaze.processEntry acc).channels,
          c.1 = p.channel_id by
    exact h ⟨[], []⟩ (by simp)
  induction entries with
  | nil => intro acc hacc; simpa using hacc
  | cons e es ih =>
      intro acc hacc
      simp only [List.foldl_cons]
      exact ih _ (tvmaze_step_ref acc e hacc)

/-- C9 witness: the theorem applied to a one-entry schedule and its emitted
programme, whose channel id `n1` is indeed a channel key of the output. -/
theorem C9_no_dangling_programme_witness :
    ∃ c ∈ (Tvmaze.convert_tvmaze_to_xmltv
        [⟨some "S", some ⟨some "N", some "n1"⟩, none,
          some (.parsed ⟨1000, -480⟩), some 30, none, none, none, none,
          none⟩]).channels, c.1 = "n1" :=
  C9_no_dangling_programme
    [⟨some "S", some ⟨some "N", some "n1"⟩, none,
      some (.parsed ⟨1000, -480⟩), some 30, none, none, none, none, none⟩]
    ⟨"n1", ⟨1000, -480⟩, ⟨1030, -480⟩, "S", ""⟩ (by decide)

/-- C7: top-level exit codes over every outcome of the effectful steps.
EPGShare: an exception in the fetch or the write exits 1, every
non-exception path (filtered or fallback payload — both of which write the
output) exits 0, and exit 0 coincides exactly with the output having been
written.  The OnTVTonight and Zap2it mains likewise exit 0 exactly when the
output file was written (their exits 1 are a surfaced error: an exception,
a rejected login, or empty guide data), and the full success conditions are
characterized. -/
theorem C7_exit_codes :
    (∀ (e : Epgshare.PyExc) (flt : String → Option String)
        (w : Except Epgshare.PyExc Unit),
      Epgshare.main (.error e) flt w = (1, false)) ∧
    (∀ (c : String) (flt : String → Option String) (e : Epgshare.PyExc),
      Epgshare.main (.ok c) flt (.error e) = (1, false)) ∧
    (∀ (c : String) (flt : String → Option String),
      Epgshare.main (.ok c) flt (.ok ()) = (0, true)) ∧
    (∀ f flt w,
      ((Epgshare.main f flt w).1 = 0 ↔ (Epgshare.main f flt w).2 = true)) ∧
    (∀ lg gd w,
      ((OntvAuth.main lg gd w).1 = 0 ↔ (OntvAuth.main lg gd w).2 = true)) ∧
    (∀ lg gd w, OntvAuth.main lg gd w = (0, true) ↔
      lg = .ok true ∧ (∃ x xs, gd = .ok (x :: xs)) ∧ w = .ok ()) ∧
    (∀ t s a e sv,
      ((Zap2it.main t s a e sv).1 = 0 ↔ (Zap2it.main t s a e sv).2 = true)) ∧
    (∀ s a e sv, Zap2it.main false s a e sv = (0, true) ↔
      s = .ok () ∧ a = .ok true ∧ e = .ok () ∧ sv = .ok ()) := by
  refine ⟨?_, ?_, ?_, ?_, ?_, ?_, ?_, ?_⟩
  · intro e flt w
    rfl
  · intro c flt e
    cases hc : flt c <;> simp [Epgshare.main, hc]
  · intro c flt
    cases hc : flt c <;> simp [Epgshare.main, hc]
  · intro f flt w
    cases f with
    | error e => simp [Epgshare.main]
    | ok c => cases hc : flt c <;> cases w <;> simp [Epgshare.main, hc]
  · intro lg gd w
    cases lg with
    | error e => simp [OntvAuth.main]
    | ok b =>
        cases b with
        | false => simp [OntvAuth.main]
        | true =>
            cases gd with
            | error e => simp [OntvAuth.main]
            | ok l => cases l <;> cases w <;> simp [OntvAuth.main]
  · intro lg gd w
    cases lg with
    | error e => simp [OntvAuth.main]
    | ok b =>
        cases b with
        | false => simp [OntvAuth.main]
        | true =>
            cases gd with
            | error e => simp [OntvAuth.main]
            | ok l =>
                cases l with
                | nil => cases w <;> simp [OntvAuth.main]
                | cons x xs =>
                    cases w with
                    | error e => simp [OntvAuth.main]
                    | ok u => simp [OntvAuth.main]
  · intro t s a e sv
    cases t with
    | true => cases sv <;> simp [Zap2it.main]
    | false =>
        cases s with
        | error x => simp [Zap2it.main, Zap2it.run]
        | ok x =>
            cases a with
            | error y => simp [Zap2it.main, Zap2it.run]
            | ok b =>
                cases b with
                | false => simp [Zap2it.main, Zap2it.run]
                | true =>
                    cases e with
                    | error z => simp [Zap2it.main, Zap2it.run]
                    | ok u => cases sv <;> simp [Zap2it.main, Zap2it.run]
  · intro s a e sv
    cases s with
    | error x => simp [Zap2it.main, Zap2it.run]
    | ok x =>
        cases x
        cases a with
        | error y => simp [Zap2it.main, Zap2it.run]
        | ok b =>
            cases b with
            | false => simp [Zap2it.main, Zap2it.run]
            | true =>
                cases e with
                | error z => simp [Zap2it.main, Zap2it.run]
                | ok u =>
                    cases u
                    cases sv with
                    | error v => simp [Zap2it.main, Zap2it.run]
                    | ok w =>
                        cases w
                        simp [Zap2it.main, Zap2it.run]

/-- C10: `zap2it_selenium_scraper.format_xmltv_time` is total on strings —
amended: an empty input yields the current time stamped `+0000`; a
non-empty input without 'T' is returned unchanged; an input containing
'T' (after rewriting 'Z' to '+00:00') that fails to parse yields the
current time stamped `+0000`; and one that parses is re-rendered from its
parsed wall-clock fields with the literal `+0000` suffix — which equals
the UTC rendering only when the source offset is zero, not in general (see
the counterexample). -/
theorem C10_format_total_cases : ∀ (now : PyDateTime) (s : String),
    (s = "" → Zap2it.format_xmltv_time now s = Zap2it.strftimePlus0000 now) ∧
    (s ≠ "" → s.data.contains 'T' = false →
      Zap2it.format_xmltv_time now s = s) ∧
    (s ≠ "" → s.data.contains 'T' = true →
      Zap2it.fromisoformatOpt (pyReplace s "Z" "+00:00") = none →
      Zap2it.format_xmltv_time now s = Zap2it.strftimePlus0000 now) ∧
    (∀ dt, s ≠ "" → s.data.contains 'T' = true →
      Zap2it.fromisoformatOpt (pyReplace s "Z" "+00:00") = some dt →
      Zap2it.format_xmltv_time now s = Zap2it.strftimePlus0000 dt) := by
  intro now s
  refine ⟨?_, ?_, ?_, ?_⟩
  · intro h
    simp [Zap2it.format_xmltv_time, h]
  · intro h1 h2
    have h2m : 'T' ∉ s.data := by simpa using h2
    simp [Zap2it.format_xmltv_time, h1, h2m]
  · intro h1 h2 h3
    have h2m : 'T' ∈ s.data := by simpa using h2
    simp [Zap2it.format_xmltv_time, h1, h2m, h3]
  · intro dt h1 h2 h3
    have h2m : 'T' ∈ s.data := by simpa using h2
    simp [Zap2it.format_xmltv_time, h1, h2m, h3]

/-- C10 counterexample: the input `2025-01-01T06:00:00-08:00` parses to
06:00 at offset -08:00, but the function emits `20250101060000 +0000`,
which (read per XMLTV) denotes a different instant than the input; the
actual UTC rendering of that instant is `20250101140000 +0000`.  So the
'T' branch does not reformat to UTC, it stamps the wall-clock fields. -/
theorem C10_counterexample :
    Zap2it.format_xmltv_time ⟨2025, 3, 4, 5, 6, 7, none⟩
      "2025-01-01T06:00:00-08:00" = "20250101060000 +0000" ∧
    Zap2it.fromisoformatOpt "2025-01-01T06:00:00-08:00" =
      some ⟨2025, 1, 1, 6, 0, 0, some (-480)⟩ ∧
    Zap2it.instantSec ⟨2025, 1, 1, 6, 0, 0, some (-480)⟩ ≠
      Zap2it.instantSec ⟨2025, 1, 1, 6, 0, 0, some 0⟩ ∧
    Zap2it.strftimePlus0000 (addMinutesNat ⟨2025, 1, 1, 6, 0, 0, some 0⟩ 480) =
      "20250101140000 +0000" := by decide

/-- C10 witness: the amended theorem applied to each branch: an unchanged
plain string, the empty string, a parsed 'Z'-suffixed ISO input, and an
unparseable 'T'-containing input. -/
theorem C10_format_total_cases_witness :
    Zap2it.format_xmltv_time ⟨2025, 3, 4, 5, 6, 7, none⟩ "hello" = "hello" ∧
    Zap2it.format_xmltv_time ⟨2025, 3, 4, 5, 6, 7, none⟩ "" =
      Zap2it.strftimePlus0000 ⟨2025, 3, 4, 5, 6, 7, none⟩ ∧
    Zap2it.format_xmltv_time ⟨2025, 3, 4, 5, 6, 7, none⟩
        "2025-01-01T06:00:00Z" =
      Zap2it.strftimePlus0000 ⟨2025, 1, 1, 6, 0, 0, some 0⟩ ∧
    Zap2it.format_xmltv_time ⟨2025, 3, 4, 5, 6, 7, none⟩ "junkTjunk" =
      Zap2it.strftimePlus0000 ⟨2025, 3, 4, 5, 6, 7, none⟩ :=
  ⟨(C10_format_total_cases ⟨2025, 3, 4, 5, 6, 7, none⟩ "hello").2.1 (by decide)
      (by decide),
    (C10_format_total_cases ⟨2025, 3, 4, 5, 6, 7, none⟩ "").1 rfl,
    (C10_format_total_cases ⟨2025, 3, 4, 5, 6, 7, none⟩ "2025-01-01T06:00:00Z").2.2.2
      ⟨2025, 1, 1, 6, 0, 0, some 0⟩ (by decide) (by decide) (by decide),
    (C10_format_total_cases ⟨2025, 3, 4, 5, 6, 7, none⟩ "junkTjunk").2.2.1 (by decide)
      (by decide) (by decide)⟩
